import Mathlib

/-!
Verification of the PDF-GPT4-JSON image-preparation and per-page
orchestration pipeline (`pdf_gpt4_json/util.py`, `pdf_gpt4_json/gpt.py`)
against its natural-language specification.

Python strings are embedded as `List Char`, Python byte strings as
`List Nat` (each element < 256), and fallible Python code as `Except
PyError`.  Effectful library calls (HTTP transport, filesystem) are
modelled by passing their outcome or the directory state explicitly.
-/

/-- Python exceptions that the modelled code can raise.  Distinct Python
exception classes that are nowhere distinguished by the code under
`src/` (KeyError / IndexError / TypeError raised while digging through
`response_dict["choices"][0]["message"]["content"]`) are collapsed into
the single constructor `keyError`. -/
inductive PyError
  | valueError
  | jsonDecodeError
  | requestsTimeout
  | requestsConnectionError
  | keyError
  | attributeError
  | fileNotFound
  | osError
deriving DecidableEq, Repr

/-- JSON values as produced by Python `json.loads`.  Numbers keep their
source lexeme (no claim in scope inspects numeric values, so no
floating-point semantics is needed); objects keep their key/value pairs
in source order. -/
inductive JVal
  | jnull
  | jbool (b : Bool)
  | jnum (lexeme : List Char)
  | jstr (s : List Char)
  | jarr (elems : List JVal)
  | jobj (fields : List (List Char × JVal))

/-- Opening curly brace character (written via its code point because the
verification gate restricts brace literals). -/
def lcurly : Char := Char.ofNat 123

/-- Closing curly brace character. -/
def rcurly : Char := Char.ofNat 125

/-- JSON whitespace accepted by Python `json.loads` (space, tab, newline,
carriage return). -/
def isJsonWs (c : Char) : Bool :=
  c == ' ' || c == '\t' || c == '\n' || c == '\r'

/-- Drop leading JSON whitespace. -/
def skipWs (s : List Char) : List Char := s.dropWhile isJsonWs

/-- Value of a hexadecimal digit, if `c` is one. -/
def hexVal (c : Char) : Option Nat :=
  if c.isDigit then some (c.toNat - 48)
  else if 97 ≤ c.toNat ∧ c.toNat ≤ 102 then some (c.toNat - 87)
  else if 65 ≤ c.toNat ∧ c.toNat ≤ 70 then some (c.toNat - 55)
  else none

/-- Single-character JSON string escapes. -/
def escChar (e : Char) : Option Char :=
  if e = '"' then some '"'
  else if e = '\\' then some '\\'
  else if e = '/' then some '/'
  else if e = 'b' then some (Char.ofNat 8)
  else if e = 'f' then some (Char.ofNat 12)
  else if e = 'n' then some '\n'
  else if e = 'r' then some '\r'
  else if e = 't' then some '\t'
  else none

/-- Parse the body of a JSON string literal (the opening quote already
consumed), returning the decoded characters and the rest of the input.
Unescaped control characters are rejected, as in Python's strict mode;
`\uXXXX` escapes are decoded as a single code point (surrogate pairing,
which no claim exercises, is not modelled). -/
def parseStrBody : List Char → Option (List Char × List Char)
  | [] => none
  | '"' :: r => some ([], r)
  | '\\' :: 'u' :: h1 :: h2 :: h3 :: h4 :: r3 =>
    (match hexVal h1, hexVal h2, hexVal h3, hexVal h4 with
     | some a, some b, some c, some d =>
       (parseStrBody r3).map
         (fun p => (Char.ofNat (a * 4096 + b * 256 + c * 16 + d) :: p.1, p.2))
     | _, _, _, _ => none)
  | '\\' :: e :: r2 =>
    (match escChar e with
     | some c => (parseStrBody r2).map (fun p => (c :: p.1, p.2))
     | none => none)
  | '\\' :: [] => none
  | c :: r =>
    if c.toNat < 32 then none
    else (parseStrBody r).map (fun p => (c :: p.1, p.2))

/-- Leading decimal digits of the input, and the rest. -/
def digitSpan (s : List Char) : List Char × List Char :=
  (s.takeWhile Char.isDigit, s.dropWhile Char.isDigit)

/-- Parse an optional JSON fraction part. -/
def parseFrac : List Char → Option (List Char × List Char)
  | '.' :: r =>
    match digitSpan r with
    | ([], _) => none
    | (fs, r2) => some ('.' :: fs, r2)
  | s => some ([], s)

/-- Parse an optional JSON exponent part. -/
def parseExp : List Char → Option (List Char × List Char)
  | [] => some ([], [])
  | c :: r =>
    if c = 'e' ∨ c = 'E' then
      let sr : List Char × List Char :=
        match r with
        | '+' :: r2 => (['+'], r2)
        | '-' :: r2 => (['-'], r2)
        | _ => ([], r)
      match digitSpan sr.2 with
      | ([], _) => none
      | (ds, r2) => some (c :: sr.1 ++ ds, r2)
    else some ([], c :: r)

/-- Parse a JSON number following the grammar Python enforces
(`-?(0|[1-9][0-9]*)(\.[0-9]+)?([eE][+-]?[0-9]+)?`). -/
def parseNum (s : List Char) : Option (JVal × List Char) :=
  let ms : List Char × List Char :=
    match s with
    | '-' :: r => (['-'], r)
    | _ => ([], s)
  match digitSpan ms.2 with
  | ([], _) => none
  | (ds, r1) =>
    if 1 < ds.length ∧ ds.headD 'x' = '0' then none
    else
      match parseFrac r1 with
      | none => none
      | some (fr, r2) =>
        match parseExp r2 with
        | none => none
        | some (ex, r3) => some (.jnum (ms.1 ++ ds ++ fr ++ ex), r3)

mutual

/-- Model of the recursive-descent core of Python `json.loads`: parse one
JSON value, returning it and the unconsumed input.  `fuel` bounds the
recursion depth and is supplied generously by `pyLoads`. -/
def parseVal : Nat → List Char → Option (JVal × List Char)
  | 0, _ => none
  | fuel + 1, s =>
    match skipWs s with
    | 'n' :: 'u' :: 'l' :: 'l' :: r => some (.jnull, r)
    | 't' :: 'r' :: 'u' :: 'e' :: r => some (.jbool true, r)
    | 'f' :: 'a' :: 'l' :: 's' :: 'e' :: r => some (.jbool false, r)
    | '"' :: r => (parseStrBody r).map (fun p => (.jstr p.1, p.2))
    | '[' :: r => parseArrBody fuel r
    | c :: r =>
      if c = lcurly then parseObjBody fuel r
      else parseNum (c :: r)
    | [] => none

/-- Parse an array body (after `[`). -/
def parseArrBody : Nat → List Char → Option (JVal × List Char)
  | 0, _ => none
  | fuel + 1, s =>
    match skipWs s with
    | ']' :: r => some (.jarr [], r)
    | t =>
      match parseVal fuel t with
      | none => none
      | some (v, r1) => parseArrTail fuel [v] r1

/-- Parse the remaining elements of an array after at least one element. -/
def parseArrTail : Nat → List JVal → List Char → Option (JVal × List Char)
  | 0, _, _ => none
  | fuel + 1, acc, s =>
    match skipWs s with
    | ',' :: r =>
      match parseVal fuel r with
      | none => none
      | some (v, r1) => parseArrTail fuel (acc ++ [v]) r1
    | ']' :: r => some (.jarr acc, r)
    | _ => none

/-- Parse an object body (after the opening curly brace). -/
def parseObjBody : Nat → List Char → Option (JVal × List Char)
  | 0, _ => none
  | fuel + 1, s =>
    match skipWs s with
    | '"' :: r =>
      match parseStrBody r with
      | none => none
      | some (k, r1) => parsePairRest fuel [] k r1
    | c :: r =>
      if c = rcurly then some (.jobj [], r) else none
    | [] => none

/-- Parse `: value` after an object key, then continue with the tail. -/
def parsePairRest :
    Nat → List (List Char × JVal) → List Char → List Char →
    Option (JVal × List Char)
  | 0, _, _, _ => none
  | fuel + 1, acc, k, s =>
    match skipWs s with
    | ':' :: r =>
      match parseVal fuel r with
      | none => none
      | some (v, r1) => parseObjTail fuel (acc ++ [(k, v)]) r1
    | _ => none

/-- Parse the remaining members of an object after at least one member. -/
def parseObjTail :
    Nat → List (List Char × JVal) → List Char → Option (JVal × List Char)
  | 0, _, _ => none
  | fuel + 1, acc, s =>
    match skipWs s with
    | ',' :: r =>
      (match skipWs r with
       | '"' :: r1 =>
         match parseStrBody r1 with
         | none => none
         | some (k, r2) => parsePairRest fuel acc k r2
       | _ => none)
    | c :: r =>
      if c = rcurly then some (.jobj acc, r) else none
    | [] => none

end

/-- Model of Python `json.loads`: parse one JSON value and require that
only whitespace follows; `none` models a raised `json.JSONDecodeError`. -/
def pyLoads (s : List Char) : Option JVal :=
  match parseVal (2 * s.length + 2) s with
  | some (v, r) => if skipWs r = [] then some v else none
  | none => none

/-- Line-comment pass of `remove_comments` (util.py line 53):
`re.sub(r'//.*', '', code)` deletes, in each line, everything from the
first `//` to the end of the line (`.` does not match the newline, which
is kept).  `fuel` is supplied as the input length plus one by
`remove_comments`, which is always sufficient. -/
def removeLineComments : Nat → List Char → List Char
  | 0, s => s
  | fuel + 1, s =>
    match s with
    | [] => []
    | '/' :: '/' :: rest => removeLineComments fuel (rest.dropWhile (fun c => ¬ c = '\n'))
    | c :: rest => c :: removeLineComments fuel rest

/-- Scan for the first `*/` and return what follows it, if any. -/
def dropThroughClose : List Char → Option (List Char)
  | [] => none
  | '*' :: '/' :: rest => some rest
  | _ :: rest => dropThroughClose rest

/-- Block-comment pass of `remove_comments` (util.py line 56):
`re.sub(r'/\*.*?\*/', '', code, flags=re.DOTALL)` deletes each `/*`
together with everything up to the nearest following `*/`; a `/*` with
no later `*/` matches nothing and is kept (in that case no later
occurrence can match either, since no `*/` remains). -/
def removeBlockComments : Nat → List Char → List Char
  | 0, s => s
  | fuel + 1, s =>
    match s with
    | [] => []
    | '/' :: '*' :: rest =>
      (match dropThroughClose rest with
       | some rest2 => removeBlockComments fuel rest2
       | none => '/' :: '*' :: rest)
    | c :: rest => c :: removeBlockComments fuel rest

/-- Model of `remove_comments` (util.py lines 42-58): strip `//` line
comments, then `/* */` block comments, over the whole reply text —
string literals included, since the regexes are applied to the raw
text. -/
def remove_comments (s : List Char) : List Char :=
  let s1 := removeLineComments (s.length + 1) s
  removeBlockComments (s1.length + 1) s1

/-- Index of the first occurrence of `pat` as a contiguous substring of
`s`, as computed by Python's `str.index` / the `in` operator. -/
def findSub (pat : List Char) : List Char → Option Nat
  | [] => if pat.isPrefixOf ([] : List Char) then some 0 else none
  | c :: rest =>
    if pat.isPrefixOf (c :: rest) then some 0
    else (findSub pat rest).map (· + 1)

/-- The literal fence marker written three-backticks-then-json in the
source. -/
def jsonFenceMark : List Char := "```json".data

/-- The literal three-backtick fence marker. -/
def fenceMark : List Char := "```".data

/-- Model of `parse_json_string` (util.py lines 26-78): strip comments;
if the marker three-backticks-json occurs, keep only the text between it
and the next three-backtick marker (`str.index` raising `ValueError`
when no such marker follows — that exception is not caught, since the
`except` clause catches only `json.JSONDecodeError`); finally parse with
`json.loads`, mapping a decode error to the sentinel `none`. -/
def parse_json_string (s : List Char) : Except PyError (Option JVal) :=
  match findSub jsonFenceMark (remove_comments s) with
  | some i =>
    match findSub fenceMark ((remove_comments s).drop (i + 7)) with
    | some j => .ok (pyLoads (((remove_comments s).drop (i + 7)).take j))
    | none => .error .valueError
  | none => .ok (pyLoads (remove_comments s))

/-! ## Inference client (util.py, `process_image_to_json`) -/

/-- Outcome of the HTTPS POST issued by `requests.post` (util.py lines
122-124): either a response was received (with some body text), or the
120-second timeout elapsed, or the connection failed.  The outcome is an
input of the model because the network is external to the program. -/
inductive HttpOutcome
  | response (body : List Char)
  | timeout
  | connectionError

/-- Model of `process_image_to_json` (util.py lines 81-127).  The
function body contains no `try`/`except`: `requests.post` raising
(timeout, connection failure) propagates to the caller, as does
`response.json()` raising on a body that is not valid JSON; only a
received JSON body is returned, whatever keys it carries. -/
def process_image_to_json (outcome : HttpOutcome) : Except PyError JVal :=
  match outcome with
  | .response body =>
    match pyLoads body with
    | some v => .ok v
    | none => .error .jsonDecodeError
  | .timeout => .error .requestsTimeout
  | .connectionError => .error .requestsConnectionError

/-! ## Orchestrator per-candidate step (gpt.py, `process`, lines 97-152) -/

/-- The two record folders the per-candidate loop writes to, listed by
the filenames they currently contain. -/
structure RunState where
  output : List (List Char)
  errors : List (List Char)
deriving DecidableEq, Repr

/-- Terminal state of one candidate in the per-candidate loop. -/
inductive StepOutcome
  | skipped
  | recordedSuccess
  | recordedFailure
deriving DecidableEq, Repr

/-- Python `dict[key]` on a parsed JSON object (last binding wins, as in
`json.loads`); `none` models the raised `KeyError` / `TypeError`. -/
def jGet (v : JVal) (k : List Char) : Option JVal :=
  match v with
  | .jobj kvs =>
    (match kvs.reverse.find? (fun kv => kv.1 == k) with
     | some kv => some kv.2
     | none => none)
  | _ => none

/-- Python `list[i]` on a parsed JSON array; `none` models the raised
`IndexError` / `TypeError`. -/
def jIdx (v : JVal) (n : Nat) : Option JVal :=
  match v with
  | .jarr xs => xs.get? n
  | _ => none

/-- Require a JSON string (the reply content handed to
`parse_json_string` must be a `str`). -/
def asStr (v : JVal) : Option (List Char) :=
  match v with
  | .jstr s => some s
  | _ => none

/-- The digging `response_dict["choices"][0]["message"]["content"]`
performed at gpt.py line 126. -/
def extractContent (resp : JVal) : Option (List Char) :=
  (jGet resp ("choices".data)).bind fun cs =>
    (jIdx cs 0).bind fun m =>
      (jGet m ("message".data)).bind fun mm =>
        (jGet mm ("content".data)).bind asStr

/-- One iteration of the per-candidate loop of `process` (gpt.py lines
97-152) for the candidate named `name`, given the parsed reply `resp` of
the inference call.  Mirrors the source exactly:

* skip (`continue`, no record) iff a file named `name + ".json"` exists
  in the *errors* folder (line 104-109) — note that this is the only
  pre-existence check the code performs;
* else, if the reply object has an `"error"` key, append
  `name + ".response.json"` to the errors folder;
* else parse `choices[0].message.content` with `parse_json_string`: a
  `none` result is recorded as a failure the same way, a parsed value is
  recorded as `name + ".json"` in the output folder;
* `sleep(8)` (line 152) is reached only on the success path — the
  returned `Bool` reports whether the inter-request delay ran;
* exceptions (missing keys, non-object reply, unclosed fence in the
  reply) propagate, aborting the whole run. -/
def candidateStep (st : RunState) (name : List Char) (resp : JVal) :
    Except PyError (RunState × StepOutcome × Bool) :=
  if (name ++ ".json".data) ∈ st.errors then
    .ok (st, .skipped, false)
  else
    match resp with
    | .jobj kvs =>
      if kvs.any (fun kv => kv.1 == "error".data) then
        .ok ({ st with errors := st.errors ++ [name ++ ".response.json".data] },
             .recordedFailure, false)
      else
        (match extractContent (.jobj kvs) with
         | none => .error .keyError
         | some text =>
           match parse_json_string text with
           | .error e => .error e
           | .ok none =>
             .ok ({ st with errors := st.errors ++ [name ++ ".response.json".data] },
                  .recordedFailure, false)
           | .ok (some _) =>
             .ok ({ st with output := st.output ++ [name ++ ".json".data] },
                  .recordedSuccess, true))
    | _ => .error .attributeError

/-! ## Normalizer geometry (util.py, `resize_images` / `split_images`) -/

/-- Model of the per-image body of `resize_images` (util.py lines
172-182) on the image's pixel dimensions: if `width > 1024` the file is
rewritten with size `(1024, int(height * (1024 / width)))`, otherwise it
is untouched.  The Python expression is evaluated in binary floating
point; it is modelled here as the exact truncation `height * 1024 / width`,
with which it agrees except when the exact quotient lies within
double-rounding error of an integer (no claim in scope depends on such
an input). -/
def resize_image (wh : Nat × Nat) : Nat × Nat :=
  if 1024 < wh.1 then (1024, wh.2 * 1024 / wh.1) else wh

/-- Model of `resize_images` over the candidate list. -/
def resize_images (imgs : List (Nat × Nat)) : List (Nat × Nat) :=
  imgs.map resize_image

/-- Model of the per-image body of `split_images` (util.py lines
200-208) on the image's (post-resize) height: when `height > 1024` the
code computes `num_splits = int(height / 1024)` — a floor — and calls
`split_image(path, num_splits, 1, should_cleanup=True, ...)`, producing
`num_splits` vertically stacked slices and removing the original file;
otherwise nothing happens.  Returns `some (sliceCount, originalRemoved)`
when a split is performed. -/
def split_image_call (height : Nat) : Option (Nat × Bool) :=
  if 1024 < height then some (height / 1024, true) else none

/-! ## Encoder (util.py, `encode_images`) -/

/-- The standard base64 alphabet. -/
def b64Alphabet : List Char :=
  "ABCDEFGHIJKLMNOPQRSTUVWXYZabcdefghijklmnopqrstuvwxyz0123456789+/".data

/-- Character for a six-bit group. -/
def sextetChar (n : Nat) : Char := b64Alphabet.getD n 'A'

/-- Index of a character in the base64 alphabet (64 for characters
outside it). -/
def sextetVal (c : Char) : Nat :=
  match b64Alphabet.indexOf? c with
  | some i => i
  | none => 64

/-- Standard base64 encoding of a byte list (each element < 256), as
produced by Python `base64.b64encode`: three bytes become four alphabet
characters; a final group of one or two bytes is padded with `=`. -/
def b64encode : List Nat → List Char
  | [] => []
  | [b1] =>
    [sextetChar (b1 / 4), sextetChar (b1 % 4 * 16), '=', '=']
  | [b1, b2] =>
    [sextetChar (b1 / 4), sextetChar (b1 % 4 * 16 + b2 / 16),
     sextetChar (b2 % 16 * 4), '=']
  | b1 :: b2 :: b3 :: rest =>
    sextetChar (b1 / 4) :: sextetChar (b1 % 4 * 16 + b2 / 16) ::
    sextetChar (b2 % 16 * 4 + b3 / 64) :: sextetChar (b3 % 64) ::
    b64encode rest

/-- Decode one base64 quad, honouring `=` padding. -/
def b64decodeQuad (c1 c2 c3 c4 : Char) : List Nat :=
  if c3 = '=' then
    [sextetVal c1 * 4 + sextetVal c2 / 16]
  else if c4 = '=' then
    [sextetVal c1 * 4 + sextetVal c2 / 16,
     sextetVal c2 % 16 * 16 + sextetVal c3 / 4]
  else
    [sextetVal c1 * 4 + sextetVal c2 / 16,
     sextetVal c2 % 16 * 16 + sextetVal c3 / 4,
     sextetVal c3 % 4 * 64 + sextetVal c4]

/-- Standard base64 decoding of a padded base64 text, as performed by
Python `base64.b64decode` on well-formed input. -/
def b64decode : List Char → List Nat
  | c1 :: c2 :: c3 :: c4 :: rest => b64decodeQuad c1 c2 c3 c4 ++ b64decode rest
  | _ => []

/-- Model of `mimetypes.guess_type` restricted to its behaviour on the
extensions relevant here: the four extensions admitted by
`get_image_files` map to their standard image MIME types; a name with an
unknown extension yields `none` (Python `None`). -/
def guess_mime (name : List Char) : Option (List Char) :=
  if (".jpg".data).isSuffixOf name then some ("image/jpeg".data)
  else if (".jpeg".data).isSuffixOf name then some ("image/jpeg".data)
  else if (".png".data).isSuffixOf name then some ("image/png".data)
  else if (".gif".data).isSuffixOf name then some ("image/gif".data)
  else none

/-- Rendering of the guessed MIME type inside the Python f-string
`f"data:{mime_type};base64,{image_b64}"`: interpolating the value `None`
produces the literal text `None`. -/
def mimeText (m : Option (List Char)) : List Char :=
  match m with
  | some s => s
  | none => "None".data

/-- Model of the per-file body of `encode_images` (util.py lines
225-231): read the file's bytes, base64-encode them, and build the data
URI from the guessed MIME type. -/
def encode_image (name : List Char) (content : List Nat) : List Char :=
  "data:".data ++ mimeText (guess_mime name) ++ ";base64,".data ++ b64encode content

/-- Model of `encode_images` over the candidate list; `contents` maps a
filename to the bytes read from it. -/
def encode_images (files : List (List Char)) (contents : List Char → List Nat) :
    List (List Char) :=
  files.map (fun f => encode_image f (contents f))

/-! ## Workspace directories (gpt.py, `process`, lines 46-67 and 154-177) -/

/-- The working directories, each listed with the filenames it contains.
All paths in `process` are relative to the document's folder (the code
does `os.chdir(folder)` first), so a directory is identified by the
literal path string the code builds for it. -/
abbrev FS := List (List Char × List (List Char))

/-- Model of `os.path.exists` / `os.listdir` at directory granularity:
the file list of directory `d`, if it exists. -/
def lookupDir : FS → List Char → Option (List (List Char))
  | [], _ => none
  | (d2, files) :: rest, d => if d2 = d then some files else lookupDir rest d

/-- Model of `shutil.rmtree(d, ignore_errors=True)`: remove the
directory if present, no-op otherwise. -/
def rmtree : FS → List Char → FS
  | [], _ => []
  | (d2, files) :: rest, d =>
    if d2 = d then rmtree rest d else (d2, files) :: rmtree rest d

/-- Model of `os.makedirs(d, exist_ok=True)`: create an empty directory
unless it already exists. -/
def makedirs (fs : FS) (d : List Char) : FS :=
  match lookupDir fs d with
  | some _ => fs
  | none => fs ++ [(d, [])]

/-- Replace the file list of an existing directory. -/
def setDir : FS → List Char → List (List Char) → FS
  | [], _, _ => []
  | (d2, files) :: rest, d, newFiles =>
    if d2 = d then (d2, newFiles) :: rest else (d2, files) :: setDir rest d newFiles

/-- Model of `clean_up_tmp_images_folder` (util.py lines 290-306):
if the directory exists, delete every file in it but keep the directory
itself; no-op if it does not exist. -/
def clean_up_tmp_images_folder (fs : FS) (d : List Char) : FS :=
  match lookupDir fs d with
  | none => fs
  | some _ => setDir fs d []

/-- Model of `os.rename(src, dst)` on directories: fails when the source
is missing; modelled as failing when the destination already exists (in
the modelled runs the destination never exists at rename time, so the
POSIX corner case of renaming onto an existing empty directory is never
reached). -/
def osRename (fs : FS) (src dst : List Char) : Except PyError FS :=
  match lookupDir fs src with
  | none => .error .fileNotFound
  | some files =>
    match lookupDir fs dst with
    | some _ => .error .osError
    | none => .ok (rmtree fs src ++ [(dst, files)])

/-- `f"./{basename}_tmp_images"` (gpt.py line 49). -/
def tmp_images_folder (b : List Char) : List Char := "./".data ++ b ++ "_tmp_images".data

/-- `f"./{basename}_output"` (gpt.py line 50). -/
def output_folder (b : List Char) : List Char := "./".data ++ b ++ "_output".data

/-- `f"{basename}_final_folders"` (gpt.py line 51 — note: no `./`). -/
def final_output_folder (b : List Char) : List Char := b ++ "_final_folders".data

/-- `f"./{basename}_errors"` (gpt.py line 52). -/
def errors_folder (b : List Char) : List Char := "./".data ++ b ++ "_errors".data

/-- Model of the workspace reset at run start (gpt.py lines 54-67), in
source order: delete-and-recreate the staging folder, delete-and-recreate
the output folder, delete the final output folder ("to make sure its
empty" — it is *not* recreated), delete-and-recreate the errors
folder. -/
def reset_workspace (b : List Char) (fs : FS) : FS :=
  let fs1 := makedirs (rmtree fs (tmp_images_folder b)) (tmp_images_folder b)
  let fs2 := makedirs (rmtree fs1 (output_folder b)) (output_folder b)
  let fs3 := rmtree fs2 (final_output_folder b)
  makedirs (rmtree fs3 (errors_folder b)) (errors_folder b)

/-- Model of `os.listdir(d)`: the directory's file list, raising
`FileNotFoundError` when the directory does not exist. -/
def dirList (fs : FS) (d : List Char) : Except PyError (List (List Char)) :=
  match lookupDir fs d with
  | some l => .ok l
  | none => .error .fileNotFound

/-- Model of the run commit (gpt.py lines 154-177): optionally empty the
staging folder, rename the output folder to the final name, then delete
the renamed folder if it is empty, and delete the errors folder if it is
empty.  The two returned Booleans report whether the summary named the
final folder resp. the errors folder (the `print` calls at lines 167-174);
a raised exception propagates, written with `Except.bind`. -/
def commit_workspace (b : List Char) (cleanup : Bool) (fs : FS) :
    Except PyError (FS × Bool × Bool) :=
  (osRename (if cleanup then clean_up_tmp_images_folder fs (tmp_images_folder b) else fs)
      (output_folder b) (final_output_folder b)).bind fun fs1 =>
    (dirList fs1 (final_output_folder b)).bind fun finalFiles =>
      (fun step2 : FS × Bool =>
        (dirList step2.1 (errors_folder b)).bind fun errFiles =>
          if 0 < errFiles.length then Except.ok (step2.1, step2.2, true)
          else Except.ok (rmtree step2.1 (errors_folder b), step2.2, false))
      (if 0 < finalFiles.length then (fs1, true)
       else (rmtree fs1 (final_output_folder b), false))

/-! ## Lemmas about the filesystem model -/

theorem lookupDir_rmtree_self (fs : FS) (d : List Char) :
    lookupDir (rmtree fs d) d = none := by
  induction fs with
  | nil => rfl
  | cons e rest ih =>
    obtain ⟨d2, files⟩ := e
    by_cases h : d2 = d
    · simp [rmtree, h, ih]
    · simp [rmtree, lookupDir, h, ih]

theorem lookupDir_rmtree_ne (fs : FS) (d e : List Char) (h : d ≠ e) :
    lookupDir (rmtree fs e) d = lookupDir fs d := by
  induction fs with
  | nil => rfl
  | cons p rest ih =>
    obtain ⟨d2, files⟩ := p
    by_cases h2 : d2 = e
    · subst h2
      simp [rmtree, lookupDir, Ne.symm h, ih]
    · by_cases h3 : d2 = d
      · subst h3
        simp [rmtree, lookupDir, h2]
      · simp [rmtree, lookupDir, h2, h3, ih]

theorem lookupDir_append_none (fs gs : FS) (d : List Char)
    (h : lookupDir fs d = none) : lookupDir (fs ++ gs) d = lookupDir gs d := by
  induction fs with
  | nil => rfl
  | cons p rest ih =>
    obtain ⟨d2, files⟩ := p
    by_cases h2 : d2 = d
    · simp [lookupDir, h2] at h
    · simp [lookupDir, h2] at h ⊢
      exact ih h

theorem lookupDir_append_some (fs gs : FS) (d : List Char) (l : List (List Char))
    (h : lookupDir fs d = some l) : lookupDir (fs ++ gs) d = some l := by
  induction fs with
  | nil => simp [lookupDir] at h
  | cons p rest ih =>
    obtain ⟨d2, files⟩ := p
    by_cases h2 : d2 = d
    · simp [lookupDir, h2] at h ⊢
      exact h
    · simp [lookupDir, h2] at h ⊢
      exact ih h

theorem lookupDir_makedirs_fresh (fs : FS) (d : List Char) :
    lookupDir (makedirs (rmtree fs d) d) d = some [] := by
  have h := lookupDir_rmtree_self fs d
  simp [makedirs, h]
  rw [lookupDir_append_none _ _ _ h]
  simp [lookupDir]

theorem lookupDir_makedirs_ne (fs : FS) (d e : List Char) (h : d ≠ e) :
    lookupDir (makedirs fs e) d = lookupDir fs d := by
  unfold makedirs
  cases h2 : lookupDir fs e with
  | some l => rfl
  | none =>
    cases h3 : lookupDir fs d with
    | some l => exact lookupDir_append_some _ _ _ _ h3
    | none =>
      rw [lookupDir_append_none _ _ _ h3]
      simp [lookupDir, Ne.symm h]

theorem tmp_ne_output (b : List Char) : tmp_images_folder b ≠ output_folder b := by
  intro h
  have h2 := congrArg List.length h
  have l1 : ("_tmp_images".data).length = 11 := by decide
  have l2 : ("_output".data).length = 7 := by decide
  simp [tmp_images_folder, output_folder, List.length_append, l1, l2] at h2

theorem tmp_ne_errors (b : List Char) : tmp_images_folder b ≠ errors_folder b := by
  intro h
  have h2 := congrArg List.length h
  have l1 : ("_tmp_images".data).length = 11 := by decide
  have l2 : ("_errors".data).length = 7 := by decide
  simp [tmp_images_folder, errors_folder, List.length_append, l1, l2] at h2

theorem tmp_ne_final (b : List Char) : tmp_images_folder b ≠ final_output_folder b := by
  intro h
  have h2 := congrArg List.length h
  have l1 : ("_tmp_images".data).length = 11 := by decide
  have l2 : ("_final_folders".data).length = 14 := by decide
  have l3 : ("./".data).length = 2 := by decide
  simp [tmp_images_folder, final_output_folder, List.length_append, l1, l2, l3] at h2

theorem output_ne_errors (b : List Char) : output_folder b ≠ errors_folder b := by
  intro h
  have h2 : ("_output".data : List Char) = "_errors".data :=
    List.append_cancel_left (h : ("./".data ++ b) ++ _ = ("./".data ++ b) ++ _)
  exact absurd h2 (by decide)

theorem output_ne_final (b : List Char) : output_folder b ≠ final_output_folder b := by
  intro h
  have h2 := congrArg List.length h
  have l1 : ("_output".data).length = 7 := by decide
  have l2 : ("_final_folders".data).length = 14 := by decide
  have l3 : ("./".data).length = 2 := by decide
  simp [output_folder, final_output_folder, List.length_append, l1, l2, l3] at h2

theorem errors_ne_final (b : List Char) : errors_folder b ≠ final_output_folder b := by
  intro h
  have h2 := congrArg List.length h
  have l1 : ("_errors".data).length = 7 := by decide
  have l2 : ("_final_folders".data).length = 14 := by decide
  have l3 : ("./".data).length = 2 := by decide
  simp [errors_folder, final_output_folder, List.length_append, l1, l2, l3] at h2

theorem sextetChar_ne_pad : ∀ n, n < 64 → sextetChar n ≠ '=' := by decide

theorem sextetVal_sextetChar : ∀ n, n < 64 → sextetVal (sextetChar n) = n := by decide

theorem b64decode_b64encode :
    ∀ (bs : List Nat), (∀ b ∈ bs, b < 256) → b64decode (b64encode bs) = bs
  | [], _ => rfl
  | [b1], h => by
    have hb1 : b1 < 256 := h b1 (by simp)
    have h1 : b1 / 4 < 64 := by omega
    have h2 : b1 % 4 * 16 < 64 := by omega
    simp [b64encode, b64decode, b64decodeQuad,
          sextetVal_sextetChar _ h1, sextetVal_sextetChar _ h2]
    omega
  | [b1, b2], h => by
    have hb1 : b1 < 256 := h b1 (by simp)
    have hb2 : b2 < 256 := h b2 (by simp)
    have h1 : b1 / 4 < 64 := by omega
    have h2 : b1 % 4 * 16 + b2 / 16 < 64 := by omega
    have h3 : b2 % 16 * 4 < 64 := by omega
    simp [b64encode, b64decode, b64decodeQuad, sextetChar_ne_pad _ h3,
          sextetVal_sextetChar _ h1, sextetVal_sextetChar _ h2,
          sextetVal_sextetChar _ h3]
    omega
  | b1 :: b2 :: b3 :: rest, h => by
    have hb1 : b1 < 256 := h b1 (by simp)
    have hb2 : b2 < 256 := h b2 (by simp)
    have hb3 : b3 < 256 := h b3 (by simp)
    have hrest : ∀ b ∈ rest, b < 256 := fun b hb => h b (by simp [hb])
    have ih := b64decode_b64encode rest hrest
    have h1 : b1 / 4 < 64 := by omega
    have h2 : b1 % 4 * 16 + b2 / 16 < 64 := by omega
    have h3 : b2 % 16 * 4 + b3 / 64 < 64 := by omega
    have h4 : b3 % 64 < 64 := by omega
    simp [b64encode, b64decode, b64decodeQuad,
          sextetChar_ne_pad _ h3, sextetChar_ne_pad _ h4,
          sextetVal_sextetChar _ h1, sextetVal_sextetChar _ h2,
          sextetVal_sextetChar _ h3, sextetVal_sextetChar _ h4, ih]
    omega

/-! ## Claim-level definitions -/

/-- Whether every occurrence of the json fence marker in `t` is followed
by a closing three-backtick marker (there is at most one occurrence the
code looks at: the first). -/
def fenceClosedB (t : List Char) : Bool :=
  match findSub jsonFenceMark t with
  | none => true
  | some i => (findSub fenceMark (t.drop (i + 7))).isSome

/-- The text `parse_json_string` hands to `json.loads` after comment
stripping: the whole text, or — when a json fence marker is present and
closed — only the fenced region. -/
def fenceBody (t : List Char) : List Char :=
  match findSub jsonFenceMark t with
  | none => t
  | some i =>
    match findSub fenceMark (t.drop (i + 7)) with
    | some j => (t.drop (i + 7)).take j
    | none => t.drop (i + 7)

/-- A reply object carrying an `error` key, as returned by the service
on failure. -/
def errorReply : JVal := .jobj [("error".data, .jstr "Rate limit reached".data)]

/-- Height the resize claim specifies: `original_height * 1024 /
original_width` rounded to the *nearest* integer (written as a clearly
named spec-side definition, to be compared with `resize_image`; halves
round up, which is irrelevant at the inputs used). -/
def resize_height_spec (w h : Nat) : Nat := (h * 1024 * 2 + w) / (2 * w)

/-! ## C10 -/

/-- C10: `remove_comments` runs over the whole reply before fence
extraction and deletes `//` to end of line even inside a JSON string
literal; consequently, for the syntactically valid reply
`(lcurly)"url": "http://example.com"(rcurly)` — whose denoted value the
model parser confirms — `parse_json_string` returns the sentinel `none`
instead of the value the reply denotes. -/
theorem comment_strip_inside_string_literal :
    remove_comments ("\x7b\"url\": \"http://example.com\"\x7d".data)
      = ("\x7b\"url\": \"http:".data)
    ∧ pyLoads ("\x7b\"url\": \"http://example.com\"\x7d".data)
      = some (JVal.jobj [("url".data, JVal.jstr "http://example.com".data)])
    ∧ parse_json_string ("\x7b\"url\": \"http://example.com\"\x7d".data) = .ok none
    ∧ parse_json_string ("\x7b\"url\": \"http://example.com\"\x7d".data)
      ≠ .ok (pyLoads ("\x7b\"url\": \"http://example.com\"\x7d".data)) := by
  refine ⟨rfl, rfl, rfl, ?_⟩
  intro h
  have h2 : (Except.ok (none : Option JVal) : Except PyError (Option JVal))
      = Except.ok (some (JVal.jobj [("url".data, JVal.jstr "http://example.com".data)])) := h
  injection h2 with h3
  exact Option.noConfusion h3

/-! ## C6 -/

/-- C6 counterexample: a reply whose comment-stripped text contains the
json fence marker with no closing marker makes `str.index` raise a
`ValueError` that the function's `except json.JSONDecodeError` clause
does not catch — the parser faults instead of returning the sentinel. -/
theorem parser_unclosed_fence_raises :
    parse_json_string ("```json\x7b\x7d".data) = .error .valueError := rfl

/-- C6 as amended: for every reply string whose comment-stripped text
has no unclosed json fence, `parse_json_string` faults on no input and
returns the `json.loads` result of the comment-stripped,
fence-extracted text (the sentinel `none` when that text is not valid
JSON). -/
theorem parser_total_when_fences_closed (s : List Char)
    (h : fenceClosedB (remove_comments s) = true) :
    parse_json_string s = .ok (pyLoads (fenceBody (remove_comments s))) := by
  unfold fenceClosedB at h
  unfold parse_json_string fenceBody
  cases h2 : findSub jsonFenceMark (remove_comments s) with
  | none => rfl
  | some i =>
    cases h3 : findSub fenceMark ((remove_comments s).drop (i + 7)) with
    | none =>
      exfalso
      rw [h2] at h
      simp [h3] at h
    | some j =>
      simp [h3]

/-- C6 witness: the amended statement applied to the repository's own
fenced test input. -/
theorem parser_total_when_fences_closed_wit :
    parse_json_string ("```json\n\x7b\"key\": \"value\"\x7d\n``` some other text\n".data)
      = .ok (pyLoads (fenceBody
          (remove_comments ("```json\n\x7b\"key\": \"value\"\x7d\n``` some other text\n".data)))) :=
  parser_total_when_fences_closed _ (by decide)

/-! ## C3 -/

/-- C3 counterexample: the 120-second timeout (and a connection failure)
is raised out of `process_image_to_json` as an exception — the result is
not an object carrying an `error` key. -/
theorem inference_timeout_raises :
    process_image_to_json HttpOutcome.timeout = .error .requestsTimeout
    ∧ (process_image_to_json HttpOutcome.timeout).isOk = false
    ∧ process_image_to_json HttpOutcome.connectionError
      = .error .requestsConnectionError := ⟨rfl, rfl, rfl⟩

/-- C3 as amended: failures the service reports inside a JSON body are
surfaced as data (the parsed body is returned unchanged, whatever keys
it has), while transport-level failures — the 120-second timeout, a
connection error — and a non-JSON body are raised as exceptions, there
being no handler in the function. -/
theorem inference_error_as_data (body bad : List Char) (v : JVal)
    (h : pyLoads body = some v) (h2 : pyLoads bad = none) :
    process_image_to_json (HttpOutcome.response body) = .ok v
    ∧ process_image_to_json (HttpOutcome.response bad) = .error .jsonDecodeError
    ∧ process_image_to_json HttpOutcome.timeout = .error .requestsTimeout
    ∧ process_image_to_json HttpOutcome.connectionError
      = .error .requestsConnectionError := by
  refine ⟨?_, ?_, rfl, rfl⟩
  · simp [process_image_to_json, h]
  · simp [process_image_to_json, h2]

/-- C3 witness: the amended statement at a service error body and at a
non-JSON body. -/
theorem inference_error_as_data_wit :
    process_image_to_json (HttpOutcome.response ("\x7b\"error\": \"bad request\"\x7d".data))
      = .ok (JVal.jobj [("error".data, JVal.jstr "bad request".data)])
    ∧ process_image_to_json (HttpOutcome.response ("Internal Server Error".data))
      = .error .jsonDecodeError
    ∧ process_image_to_json HttpOutcome.timeout = .error .requestsTimeout
    ∧ process_image_to_json HttpOutcome.connectionError
      = .error .requestsConnectionError :=
  inference_error_as_data _ _ _ (by rfl) (by rfl)

/-! ## C5 -/

/-- C5 counterexample: a 1500 x 1000 image is resized to height 682 —
the truncation of 682.66… — where rounding to the nearest integer pixel,
as the claim states, would give 683. -/
theorem resize_truncates_cex :
    resize_image (1500, 1000) = (1024, 682)
    ∧ resize_height_spec 1500 1000 = 683
    ∧ (682 : Nat) ≠ 683 := by decide

/-- C5 as amended: an image wider than 1024 is replaced by one of width
exactly 1024 and height the *truncation* of `height * 1024 / width`
(within one pixel below exact scaling, as the floor characterisation
shows); an image of width at most 1024 is unchanged. -/
theorem resize_truncates (w h : Nat) :
    (1024 < w →
      resize_image (w, h) = (1024, h * 1024 / w)
      ∧ (h * 1024 / w) * w ≤ h * 1024
      ∧ h * 1024 < (h * 1024 / w + 1) * w)
    ∧ (w ≤ 1024 → resize_image (w, h) = (w, h)) := by
  constructor
  · intro hw
    have hw0 : 0 < w := by omega
    refine ⟨by simp [resize_image, hw], Nat.div_mul_le_self _ _, ?_⟩
    exact (Nat.div_lt_iff_lt_mul hw0).mp (Nat.lt_succ_self _)
  · intro hw
    simp [resize_image]
    omega

/-- C5 witness: the amended statement at a wide and at a narrow image. -/
theorem resize_truncates_wit :
    resize_image (1500, 1000) = (1024, 1000 * 1024 / 1500)
    ∧ resize_image (800, 600) = (800, 600) :=
  ⟨((resize_truncates 1500 1000).1 (by decide)).1,
   (resize_truncates 800 600).2 (by decide)⟩

/-! ## C2 -/

/-- C2 counterexample: an image of height 1500 is "split" into
`int(1500 / 1024) = 1` slice — the slice count the claim specifies,
`ceil(1500 / 1024) = 2`, differs — so the single produced slice is the
whole 1500-pixel-tall image and exceeds the 1024 bound. -/
theorem split_count_floor_cex :
    split_image_call 1500 = some (1, true)
    ∧ (1500 + 1023) / 1024 = 2
    ∧ (1 : Nat) ≠ 2 := by decide

/-- C2 as amended: an image taller than 1024 is split into
`floor(height / 1024)` slices (and the original file is removed); this
count agrees with the claimed `ceil(height / 1024)` exactly when 1024
divides the height, and is one less otherwise. -/
theorem split_count_floor (h : Nat) (hh : 1024 < h) :
    split_image_call h = some (h / 1024, true)
    ∧ (h / 1024 = (h + 1023) / 1024 ↔ h % 1024 = 0) := by
  refine ⟨by simp [split_image_call, hh], ?_⟩
  omega

/-- C2 witness: the amended statement at height 2048, where the floor
and ceiling counts agree. -/
theorem split_count_floor_wit :
    split_image_call 2048 = some (2048 / 1024, true)
    ∧ (2048 / 1024 = (2048 + 1023) / 1024 ↔ 2048 % 1024 = 0) :=
  split_count_floor 2048 (by decide)

/-! ## C9 -/

/-- C9 counterexample: a file whose extension yields no known MIME type
is encoded with the literal text `None` in the MIME field — the result
of interpolating Python `None` into the f-string — not with an empty
(or any best-effort) MIME type. -/
theorem encode_unknown_mime_none :
    encode_image ("imgfile".data) [0] = ("data:None;base64,AA==".data)
    ∧ ("data:None;base64,AA==".data) ≠ ("data:;base64,AA==".data) := by
  refine ⟨rfl, by decide⟩

/-- C9 as amended: for every file the encoder returns
`data:<mime>;base64,<payload>` with `<payload>` the standard base64
encoding of the file's bytes — decoding it reproduces the bytes exactly
— and a file with an unknown extension is still encoded without
failure, its MIME field being the literal text `None`. -/
theorem encode_data_uri_roundtrip (name : List Char) (content : List Nat)
    (h : ∀ x ∈ content, x < 256) :
    ∃ payload,
      encode_image name content
        = "data:".data ++ mimeText (guess_mime name) ++ ";base64,".data ++ payload
      ∧ b64decode payload = content :=
  ⟨b64encode content, rfl, b64decode_b64encode content h⟩

/-- C9 witness: the amended statement at a JPEG candidate with three
concrete bytes. -/
theorem encode_data_uri_roundtrip_wit :
    ∃ payload,
      encode_image ("page_1.jpg".data) [255, 0, 128]
        = "data:".data ++ mimeText (guess_mime ("page_1.jpg".data))
          ++ ";base64,".data ++ payload
      ∧ b64decode payload = [255, 0, 128] :=
  encode_data_uri_roundtrip _ _ (by decide)

/-! ## C1 -/

/-- C1, evaluating the code at the failing input: the pre-existence check
reads `errors_folder/<name>.json`, a path no branch ever writes — error
records are written as `<name>.response.json` and success records land in
the *output* folder — so a candidate whose error record (second conjunct)
or success record (third conjunct) already exists is dispatched again
instead of being skipped; and the run-start reset (last two conjuncts)
empties both record folders anyway, so a re-run over a completed
workspace re-dispatches every candidate. -/
theorem skip_check_never_fires :
    candidateStep ⟨[], []⟩ ("doc_1.jpg".data) errorReply
      = .ok (⟨[], ["doc_1.jpg.response.json".data]⟩, .recordedFailure, false)
    ∧ candidateStep ⟨[], ["doc_1.jpg.response.json".data]⟩ ("doc_1.jpg".data) errorReply
      = .ok (⟨[], ["doc_1.jpg.response.json".data, "doc_1.jpg.response.json".data]⟩,
             .recordedFailure, false)
    ∧ candidateStep ⟨["doc_1.jpg.json".data], []⟩ ("doc_1.jpg".data) errorReply
      = .ok (⟨["doc_1.jpg.json".data], ["doc_1.jpg.response.json".data]⟩,
             .recordedFailure, false)
    ∧ StepOutcome.recordedFailure ≠ StepOutcome.skipped
    ∧ lookupDir (reset_workspace ("doc.pdf".data)
        [(output_folder ("doc.pdf".data), ["doc_1.jpg.json".data]),
         (errors_folder ("doc.pdf".data), ["doc_2.jpg.response.json".data])])
        (output_folder ("doc.pdf".data)) = some []
    ∧ lookupDir (reset_workspace ("doc.pdf".data)
        [(output_folder ("doc.pdf".data), ["doc_1.jpg.json".data]),
         (errors_folder ("doc.pdf".data), ["doc_2.jpg.response.json".data])])
        (errors_folder ("doc.pdf".data)) = some [] := by
  refine ⟨rfl, rfl, rfl, by decide, rfl, rfl⟩

/-! ## C4 -/

/-- C4 counterexample: a dispatched candidate whose reply carries an
`error` key is recorded as a failure and the loop `continue`s straight
to the next candidate — the slept flag is `false`, no inter-request
delay runs. -/
theorem no_delay_after_failure :
    candidateStep ⟨[], []⟩ ("page_1.jpg".data) errorReply
      = .ok (⟨[], ["page_1.jpg.response.json".data]⟩, .recordedFailure, false)
    ∧ StepOutcome.recordedFailure ≠ StepOutcome.skipped := ⟨rfl, by decide⟩

/-- C4 as amended: the fixed inter-request delay (`sleep(8)`) runs after
a candidate exactly when the candidate ends in a recorded success;
candidates ending in a recorded failure — and skipped candidates — move
on to the next candidate with no delay. -/
theorem delay_only_after_success (st : RunState) (name : List Char) (resp : JVal)
    (st2 : RunState) (o : StepOutcome) (slept : Bool)
    (h : candidateStep st name resp = .ok (st2, o, slept)) :
    slept = true ↔ o = .recordedSuccess := by
  unfold candidateStep at h
  split at h
  · simp only [Except.ok.injEq, Prod.mk.injEq] at h
    obtain ⟨-, h2, h3⟩ := h
    subst h2
    subst h3
    simp
  · split at h
    · split at h
      · simp only [Except.ok.injEq, Prod.mk.injEq] at h
        obtain ⟨-, h2, h3⟩ := h
        subst h2
        subst h3
        simp
      · split at h
        · exact absurd h (by simp)
        · split at h
          · exact absurd h (by simp)
          · simp only [Except.ok.injEq, Prod.mk.injEq] at h
            obtain ⟨-, h2, h3⟩ := h
            subst h2
            subst h3
            simp
          · simp only [Except.ok.injEq, Prod.mk.injEq] at h
            obtain ⟨-, h2, h3⟩ := h
            subst h2
            subst h3
            simp
    · exact absurd h (by simp)

/-- C4 witness: the amended statement applied to a concrete failing
dispatch (no delay) — instantiating the iff at that input. -/
theorem delay_only_after_success_wit :
    (false = true ↔ StepOutcome.recordedFailure = StepOutcome.recordedSuccess) :=
  delay_only_after_success ⟨[], []⟩ ("page_2.jpg".data) errorReply
    ⟨[], ["page_2.jpg.response.json".data]⟩ .recordedFailure false rfl

/-! ## C8 -/

/-- C8 counterexample: a final output directory holding a record from an
earlier run is *deleted* by the run-start reset (gpt.py line 63), not
left untouched. -/
theorem reset_deletes_final_cex :
    lookupDir [(final_output_folder ("doc.pdf".data), ["doc_1.jpg.json".data])]
        (final_output_folder ("doc.pdf".data)) = some ["doc_1.jpg.json".data]
    ∧ lookupDir (reset_workspace ("doc.pdf".data)
        [(final_output_folder ("doc.pdf".data), ["doc_1.jpg.json".data])])
        (final_output_folder ("doc.pdf".data)) = none := ⟨rfl, rfl⟩

/-- C8 as amended: the run-start reset deletes and recreates the
staging, output and errors directories, *and also deletes the final
output directory* (without recreating it); every other directory is
left untouched. -/
theorem reset_behavior (b : List Char) (fs : FS) :
    lookupDir (reset_workspace b fs) (tmp_images_folder b) = some []
    ∧ lookupDir (reset_workspace b fs) (output_folder b) = some []
    ∧ lookupDir (reset_workspace b fs) (errors_folder b) = some []
    ∧ lookupDir (reset_workspace b fs) (final_output_folder b) = none
    ∧ ∀ d, d ≠ tmp_images_folder b → d ≠ output_folder b →
        d ≠ errors_folder b → d ≠ final_output_folder b →
        lookupDir (reset_workspace b fs) d = lookupDir fs d := by
  have hto := tmp_ne_output b
  have hte := tmp_ne_errors b
  have htf := tmp_ne_final b
  have hoe := output_ne_errors b
  have hof := output_ne_final b
  have hef := errors_ne_final b
  unfold reset_workspace
  refine ⟨?_, ?_, ?_, ?_, ?_⟩
  · rw [lookupDir_makedirs_ne _ _ _ hte, lookupDir_rmtree_ne _ _ _ hte,
        lookupDir_rmtree_ne _ _ _ htf, lookupDir_makedirs_ne _ _ _ hto,
        lookupDir_rmtree_ne _ _ _ hto, lookupDir_makedirs_fresh]
  · rw [lookupDir_makedirs_ne _ _ _ hoe, lookupDir_rmtree_ne _ _ _ hoe,
        lookupDir_rmtree_ne _ _ _ hof, lookupDir_makedirs_fresh]
  · rw [lookupDir_makedirs_fresh]
  · rw [lookupDir_makedirs_ne _ _ _ (Ne.symm hef), lookupDir_rmtree_ne _ _ _ (Ne.symm hef),
        lookupDir_rmtree_self]
  · intro d h1 h2 h3 h4
    rw [lookupDir_makedirs_ne _ _ _ h3, lookupDir_rmtree_ne _ _ _ h3,
        lookupDir_rmtree_ne _ _ _ h4, lookupDir_makedirs_ne _ _ _ h2,
        lookupDir_rmtree_ne _ _ _ h2, lookupDir_makedirs_ne _ _ _ h1,
        lookupDir_rmtree_ne _ _ _ h1]

/-- C8 witness: the amended statement instantiated to show an unrelated
directory survives the reset untouched. -/
theorem reset_behavior_wit :
    lookupDir (reset_workspace ("doc.pdf".data) [("other".data, ["keep.txt".data])])
        ("other".data) = some ["keep.txt".data] := by
  rw [(reset_behavior ("doc.pdf".data) [("other".data, ["keep.txt".data])]).2.2.2.2
      ("other".data) (by decide) (by decide) (by decide) (by decide)]
  rfl

/-! ## C7 -/

theorem except_bind_ok {α β : Type} (a : α) (f : α → Except PyError β) :
    (Except.ok a).bind f = f a := rfl

/-- C7: at commit, with the three workspace directories in the state the
run loop leaves them in (output and errors present, final absent), the
net effect is: the output directory is gone; a final directory exists —
holding exactly the output records — if and only if the output directory
was non-empty (when empty, the renamed directory is deleted and no final
directory remains); the errors directory is deleted if empty and
retained otherwise; and the summary reports exactly the non-empty ones
of final output and errors. -/
theorem commit_final_iff_nonempty (b : List Char) (fs : FS)
    (outFiles errFiles : List (List Char))
    (hOut : lookupDir fs (output_folder b) = some outFiles)
    (hErr : lookupDir fs (errors_folder b) = some errFiles)
    (hFinal : lookupDir fs (final_output_folder b) = none) :
    ∃ fs2 r1 r2,
      commit_workspace b false fs = .ok (fs2, r1, r2)
      ∧ (r1 = true ↔ outFiles ≠ [])
      ∧ (r2 = true ↔ errFiles ≠ [])
      ∧ lookupDir fs2 (output_folder b) = none
      ∧ lookupDir fs2 (final_output_folder b)
          = (if outFiles = [] then none else some outFiles)
      ∧ lookupDir fs2 (errors_folder b)
          = (if errFiles = [] then none else some errFiles) := by
  have hoe := output_ne_errors b
  have hof := output_ne_final b
  have hef := errors_ne_final b
  have e1 : osRename fs (output_folder b) (final_output_folder b)
      = .ok (rmtree fs (output_folder b) ++ [(final_output_folder b, outFiles)]) := by
    unfold osRename
    rw [hOut, hFinal]
  have l1 : lookupDir (rmtree fs (output_folder b) ++ [(final_output_folder b, outFiles)])
      (final_output_folder b) = some outFiles := by
    rw [lookupDir_append_none]
    · simp [lookupDir]
    · rw [lookupDir_rmtree_ne _ _ _ (Ne.symm hof)]
      exact hFinal
  have l2 : lookupDir (rmtree fs (output_folder b) ++ [(final_output_folder b, outFiles)])
      (errors_folder b) = some errFiles := by
    refine lookupDir_append_some _ _ _ _ ?_
    rw [lookupDir_rmtree_ne _ _ _ (Ne.symm hoe)]
    exact hErr
  have l3 : lookupDir (rmtree fs (output_folder b) ++ [(final_output_folder b, outFiles)])
      (output_folder b) = none := by
    rw [lookupDir_append_none _ _ _ (lookupDir_rmtree_self _ _)]
    simp [lookupDir, Ne.symm hof]
  have d1 : dirList (rmtree fs (output_folder b) ++ [(final_output_folder b, outFiles)])
      (final_output_folder b) = .ok outFiles := by
    unfold dirList
    rw [l1]
  by_cases ho : outFiles = []
  · subst ho
    have l4 : lookupDir
        (rmtree (rmtree fs (output_folder b) ++ [(final_output_folder b, ([] : List (List Char)))])
          (final_output_folder b)) (errors_folder b) = some errFiles := by
      rw [lookupDir_rmtree_ne _ _ _ hef]
      exact l2
    have d2 : dirList
        (rmtree (rmtree fs (output_folder b) ++ [(final_output_folder b, ([] : List (List Char)))])
          (final_output_folder b)) (errors_folder b) = .ok errFiles := by
      unfold dirList
      rw [l4]
    by_cases he : errFiles = []
    · subst he
      refine ⟨rmtree (rmtree (rmtree fs (output_folder b)
          ++ [(final_output_folder b, [])]) (final_output_folder b)) (errors_folder b),
          false, false, ?_, by simp, by simp, ?_, ?_, ?_⟩
      · simp [commit_workspace, e1, except_bind_ok, d1, d2]
      · rw [lookupDir_rmtree_ne _ _ _ hoe, lookupDir_rmtree_ne _ _ _ hof]
        exact l3
      · rw [lookupDir_rmtree_ne _ _ _ (Ne.symm hef), lookupDir_rmtree_self]
        simp
      · rw [lookupDir_rmtree_self]
        simp
    · have hel : 0 < errFiles.length := List.length_pos.mpr he
      refine ⟨rmtree (rmtree fs (output_folder b)
          ++ [(final_output_folder b, [])]) (final_output_folder b),
          false, true, ?_, by simp, by simp [he], ?_, ?_, ?_⟩
      · simp [commit_workspace, e1, except_bind_ok, d1, d2, hel]
      · rw [lookupDir_rmtree_ne _ _ _ hof]
        exact l3
      · rw [lookupDir_rmtree_self]
        simp
      · rw [l4]
        simp [he]
  · have hol : 0 < outFiles.length := List.length_pos.mpr ho
    have d2 : dirList (rmtree fs (output_folder b) ++ [(final_output_folder b, outFiles)])
        (errors_folder b) = .ok errFiles := by
      unfold dirList
      rw [l2]
    by_cases he : errFiles = []
    · subst he
      refine ⟨rmtree (rmtree fs (output_folder b)
          ++ [(final_output_folder b, outFiles)]) (errors_folder b),
          true, false, ?_, by simp [ho], by simp, ?_, ?_, ?_⟩
      · simp [commit_workspace, e1, except_bind_ok, d1, d2, hol]
      · rw [lookupDir_rmtree_ne _ _ _ hoe]
        exact l3
      · rw [lookupDir_rmtree_ne _ _ _ (Ne.symm hef), l1]
        simp [ho]
      · rw [lookupDir_rmtree_self]
        simp
    · have hel : 0 < errFiles.length := List.length_pos.mpr he
      refine ⟨rmtree fs (output_folder b) ++ [(final_output_folder b, outFiles)],
          true, true, ?_, by simp [ho], by simp [he], l3, ?_, ?_⟩
      · simp [commit_workspace, e1, except_bind_ok, d1, d2, hol, hel]
      · rw [l1]
        simp [ho]
      · rw [l2]
        simp [he]

/-- C7 witness: the commit characterisation applied to a concrete
workspace with one success record and no error records. -/
theorem commit_final_iff_nonempty_wit :
    ∃ fs2 r1 r2,
      commit_workspace ("doc.pdf".data) false
        [(output_folder ("doc.pdf".data), ["doc_1.jpg.json".data]),
         (errors_folder ("doc.pdf".data), [])]
        = .ok (fs2, r1, r2)
      ∧ (r1 = true ↔ (["doc_1.jpg.json".data] : List (List Char)) ≠ [])
      ∧ (r2 = true ↔ ([] : List (List Char)) ≠ [])
      ∧ lookupDir fs2 (output_folder ("doc.pdf".data)) = none
      ∧ lookupDir fs2 (final_output_folder ("doc.pdf".data))
          = (if (["doc_1.jpg.json".data] : List (List Char)) = [] then none
             else some ["doc_1.jpg.json".data])
      ∧ lookupDir fs2 (errors_folder ("doc.pdf".data))
          = (if ([] : List (List Char)) = [] then none else some []) :=
  commit_final_iff_nonempty _ _ _ _ (by decide) (by decide) (by decide)
